import Mathlib

set_option autoImplicit false

/-!
Shallow embedding of `src/lib/ai-providers/grok-adapter.ts` (the Grok
provider adapter of the TLDW repository) and proofs of the specification
claims about it.

JavaScript runtime values that flow through the adapter (parsed JSON
bodies, payload objects, schema trees) are modelled by the inductive type
`JVal`: an object is its ordered list of key/value entries, an array its
list of elements.  `Option JVal` models a value that may be `undefined`
(`none`).  JavaScript numbers are modelled by `Rat`.
-/

/-- A JSON-like JavaScript value (null, boolean, number, string, array,
object).  Objects are ordered entry lists with distinct keys, as produced
by `JSON.parse` / object literals. -/
inductive JVal where
  | null : JVal
  | bool : Bool → JVal
  | num : Rat → JVal
  | str : String → JVal
  | arr : List JVal → JVal
  | obj : List (String × JVal) → JVal

/-- JavaScript truthiness of a defined value: `null`, `false`, `0` and the
empty string are falsy; every object and array (even empty) is truthy. -/
def jsTruthy : JVal → Bool
  | .null => false
  | .bool b => b
  | .num q => q != 0
  | .str s => s ≠ ""
  | .arr _ => true
  | .obj _ => true

/-- Truthiness of a possibly-undefined value: `undefined` is falsy. -/
def jsTruthyO : Option JVal → Bool
  | none => false
  | some v => jsTruthy v

/-- Property access `v.k`: `undefined` unless `v` is an object carrying the
key. -/
def jsGet (v : JVal) (k : String) : Option JVal :=
  match v with
  | .obj fields => (fields.find? (fun kv => kv.1 = k)).map (·.2)
  | _ => none

/-- Optional chaining `v?.k`. -/
def jsGetO (v : Option JVal) (k : String) : Option JVal :=
  match v with
  | none => none
  | some w => jsGet w k

/-- Nullish coalescing `a ?? b` (skips `null` and `undefined`). -/
def jsQQ (a b : Option JVal) : Option JVal :=
  match a with
  | none => b
  | some .null => b
  | some v => some v

/-- Nullish coalescing with a defined right operand, `a ?? b`. -/
def jsQQD (a : Option JVal) (b : JVal) : JVal :=
  match a with
  | none => b
  | some .null => b
  | some v => v

/-- Logical or `a || b`: `a` when truthy, else `b`. -/
def jsOr (a b : Option JVal) : Option JVal :=
  if jsTruthyO a then a else b

/-- `DEFAULT_MODEL` of the adapter. -/
def DEFAULT_MODEL : String := "grok-4-1-fast-non-reasoning"

/-- `PROVIDER_NAME` of the adapter. -/
def PROVIDER_NAME : String := "grok"

/-- `UNSUPPORTED_SCHEMA_PROPS`: JSON-Schema keys Grok's structured outputs
reject, stripped by the sanitizer. -/
def UNSUPPORTED_SCHEMA_PROPS : List String :=
  ["minLength", "maxLength", "minItems", "maxItems",
   "minContains", "maxContains", "$schema"]

mutual

/-- `sanitizeSchemaForGrok`: recursively removes the unsupported keys from
a schema tree; non-object/non-array values pass through, arrays are mapped
elementwise, objects keep each non-banned entry with its value sanitized
(the source's `for` loop over `Object.entries`). -/
def sanitizeSchemaForGrok : JVal → JVal
  | .arr xs => .arr (sanitizeList xs)
  | .obj fields => .obj (sanitizeFields fields)
  | v => v

/-- Elementwise sanitization of an array of sub-schemas
(`schema.map(sanitizeSchemaForGrok)`). -/
def sanitizeList : List JVal → List JVal
  | [] => []
  | x :: xs => sanitizeSchemaForGrok x :: sanitizeList xs

/-- The entry loop of `sanitizeSchemaForGrok`: a banned key is skipped
(`continue`), any other entry is kept with its value sanitized. -/
def sanitizeFields : List (String × JVal) → List (String × JVal)
  | [] => []
  | (k, v) :: fs =>
      if UNSUPPORTED_SCHEMA_PROPS.contains k then sanitizeFields fs
      else (k, sanitizeSchemaForGrok v) :: sanitizeFields fs

end

mutual

/-- A schema tree is clean when no banned key occurs at any depth. -/
def bannedFree : JVal → Bool
  | .arr xs => bannedFreeList xs
  | .obj fields => bannedFreeFields fields
  | _ => true

/-- `bannedFree` over an array of sub-schemas. -/
def bannedFreeList : List JVal → Bool
  | [] => true
  | x :: xs => bannedFree x && bannedFreeList xs

/-- `bannedFree` over object entries. -/
def bannedFreeFields : List (String × JVal) → Bool
  | [] => true
  | (k, v) :: fs =>
      !UNSUPPORTED_SCHEMA_PROPS.contains k && bannedFree v &&
        bannedFreeFields fs

end

/-- The adapter's failure modes, one constructor per `throw` site of the
source (the spec's taxonomy names them ConfigurationError,
ValidationError, TransportError, TimeoutError, UpstreamError,
EmptyResponseError). -/
inductive GrokError where
  | configuration (msg : String)
  | schemaConversion (msg : String)
  | nonJson
  | upstream (code : Option JVal) (message : JVal)
  | emptyResponse
  | timeout
  | fetchFailed

/-- Modelled from the spec: `ProviderGenerateParams` of the missing
`./types` module — prompt (required text), optional model override,
optional numeric sampling controls, optional timeoutMs, optional schema
descriptor, optional schemaName.  The sampling controls are `Option JVal`
so the source's `typeof x === 'number'` guards are meaningful; the schema
descriptor is modelled by what the external conversion collaborator
(`z.toJSONSchema`) does with it: `.ok doc` when conversion returns a
JSON-Schema document, `.error msg` when it throws an error with message
`msg`. -/
structure ProviderGenerateParams where
  prompt : String
  model : Option String := none
  temperature : Option JVal := none
  topP : Option JVal := none
  maxOutputTokens : Option JVal := none
  timeoutMs : Option Rat := none
  zodSchema : Option (Except String JVal) := none
  schemaName : Option String := none

/-- The usage record built by `normalizeUsage` (fields may be undefined). -/
structure UsageStats where
  promptTokens : Option JVal
  completionTokens : Option JVal
  totalTokens : Option JVal
  latencyMs : Option Rat

/-- Modelled from the spec: `ProviderGenerateResult` of the missing
`./types` module — content, rawResponse, provider, model, usage, exactly
the object literal the adapter returns. -/
structure ProviderGenerateResult where
  content : String
  rawResponse : Option JVal
  provider : String
  model : JVal
  usage : Option UsageStats

/-- JavaScript `String.prototype.trim`: strips leading and trailing
whitespace. -/
def jsTrim (s : String) : String :=
  ⟨((s.data.dropWhile Char.isWhitespace).reverse.dropWhile
      Char.isWhitespace).reverse⟩

/-- `ensureSchemaName`: the trimmed name when the name is truthy with a
non-empty trim, otherwise the fixed default. -/
def ensureSchemaName (name : Option String) : String :=
  match name with
  | some n =>
      if n ≠ "" ∧ 0 < (jsTrim n).length then jsTrim n else "ResponseSchema"
  | none => "ResponseSchema"

/-- State of the cancellation resources `buildAbortController` creates:
whether an `AbortController` exists (its signal is handed to `fetch`) and
whether a deadline timer is pending. -/
structure AbortState where
  hasController : Bool
  timerStarted : Bool

/-- `buildAbortController`: no controller and no timer when `timeoutMs` is
absent, zero (falsy), non-positive, or the environment lacks
`AbortController`; otherwise a controller with a started deadline timer. -/
def buildAbortController (timeoutMs : Option Rat) (supportsAbort : Bool) :
    AbortState :=
  match timeoutMs with
  | none => ⟨false, false⟩
  | some t => if t ≤ 0 ∨ ¬ supportsAbort then ⟨false, false⟩ else ⟨true, true⟩

/-- The part scan of `extractTextFromChoice`: falsy parts are skipped
(`if (!part) continue`), then the first part that is a string, or carries
a string under `text`, `output_text` or `data`, wins. -/
def scanParts : List JVal → Option String
  | [] => none
  | p :: rest =>
      if !jsTruthy p then scanParts rest
      else
        match p with
        | .str s => some s
        | _ =>
          match jsGet p "text" with
          | some (.str s) => some s
          | _ =>
            match jsGet p "output_text" with
            | some (.str s) => some s
            | _ =>
              match jsGet p "data" with
              | some (.str s) => some s
              | _ => scanParts rest

/-- The tail of `extractTextFromChoice`: the message's string `text` field
if any, else the empty string. -/
def messageTextField (message : JVal) : String :=
  match jsGet message "text" with
  | some (.str s) => s
  | _ => ""

/-- `extractTextFromChoice`: empty string for a falsy choice; otherwise
take `choice.message ?? choice.delta ?? an empty object`, return its
`content` when that is a string, scan `content` when it is an array
(falling through to the `text` field when no part matches), and otherwise
fall through to the `text` field or the empty string. -/
def extractTextFromChoice (choice : Option JVal) : String :=
  if !jsTruthyO choice then ""
  else
    let c := choice.getD .null
    let message := jsQQD (jsGet c "message") (jsQQD (jsGet c "delta") (.obj []))
    match jsGet message "content" with
    | some (.str s) => s
    | some (.arr parts) =>
        match scanParts parts with
        | some s => s
        | none => messageTextField message
    | _ => messageTextField message

/-- `normalizeUsage`: for falsy `raw`, a latency-only record when
`latencyMs` is truthy and `undefined` otherwise; for truthy `raw`, the
`??`-chains over snake_case/camelCase prompt/input and completion/output
variants, an explicit total taken verbatim with the prompt+completion sum
as fallback when both are numbers, and `latencyMs` attached as given. -/
def normalizeUsage (raw : Option JVal) (latencyMs : Option Rat) :
    Option UsageStats :=
  if !jsTruthyO raw then
    match latencyMs with
    | some l => if l ≠ 0 then some ⟨none, none, none, some l⟩ else none
    | none => none
  else
    let promptTokens :=
      jsQQ (jsGetO raw "prompt_tokens")
        (jsQQ (jsGetO raw "promptTokens")
          (jsQQ (jsGetO raw "input_tokens") (jsGetO raw "inputTokens")))
    let completionTokens :=
      jsQQ (jsGetO raw "completion_tokens")
        (jsQQ (jsGetO raw "completionTokens")
          (jsQQ (jsGetO raw "output_tokens") (jsGetO raw "outputTokens")))
    let totalTokens :=
      jsQQ (jsGetO raw "total_tokens")
        (jsQQ (jsGetO raw "totalTokens")
          (match promptTokens, completionTokens with
           | some (.num p), some (.num c) => some (.num (p + c))
           | _, _ => none))
    some ⟨promptTokens, completionTokens, totalTokens, latencyMs⟩

/-- `params.model ?? DEFAULT_MODEL`, the payload's `model` field. -/
def resolvedModel (params : ProviderGenerateParams) : String :=
  params.model.getD DEFAULT_MODEL

/-- One sparse payload entry, `if (typeof x === 'number') payload[k] = x`:
emitted under key `k` exactly when the value passes the
`typeof x === 'number'` guard. -/
def numEntry (k : String) (x : Option JVal) : List (String × JVal) :=
  match x with
  | some (.num q) => [(k, .num q)]
  | _ => []

/-- The sampling entries of the payload: each of `temperature`, `top_p`
and `max_output_tokens` is emitted exactly when the corresponding params
field passes its `typeof x === 'number'` guard. -/
def samplingFields (params : ProviderGenerateParams) : List (String × JVal) :=
  numEntry "temperature" params.temperature ++
  numEntry "top_p" params.topP ++
  numEntry "max_output_tokens" params.maxOutputTokens

/-- The unconditional head of the payload: resolved model and the single
user-role message carrying the prompt. -/
def basePayloadFields (params : ProviderGenerateParams) :
    List (String × JVal) :=
  [("model", .str (resolvedModel params)),
   ("messages",
    .arr [.obj [("role", .str "user"), ("content", .str params.prompt)]])]

/-- The structured-output block of the payload: absent without a schema
descriptor; on successful conversion, `response_format` of shape
`type: json_schema` with named, sanitized schema; when the conversion
collaborator throws, the wrapped conversion error. -/
def responseFormatFields (params : ProviderGenerateParams) :
    Except GrokError (List (String × JVal)) :=
  match params.zodSchema with
  | none => .ok []
  | some (.ok jsonSchema) =>
      .ok [("response_format",
            .obj [("type", .str "json_schema"),
                  ("json_schema",
                   .obj [("name", .str (ensureSchemaName params.schemaName)),
                         ("schema", sanitizeSchemaForGrok jsonSchema)])])]
  | some (.error msg) =>
      .error (.schemaConversion ("Failed to convert schema: " ++ msg))

/-- `buildPayload`: model and messages always, sampling fields sparsely,
and the structured-output block when a schema descriptor is present;
conversion failure aborts the build. -/
def buildPayload (params : ProviderGenerateParams) : Except GrokError JVal :=
  match responseFormatFields params with
  | .error e => .error e
  | .ok rf =>
      .ok (.obj (basePayloadFields params ++ samplingFields params ++ rf))

/-- The adapter object `createGrokAdapter` returns: fixed identity and
default model plus the configuration captured at construction. -/
structure GrokAdapter where
  name : String
  defaultModel : String
  apiKey : String
  baseUrl : String

/-- `replace(/\/$/, '')`: removes one trailing slash if present. -/
def stripTrailingSlash (s : String) : String :=
  if s.endsWith "/" then s.dropRight 1 else s

/-- `createGrokAdapter`: reads the credential from the environment (a
partial map from variable names to string values); a missing or empty
(falsy) `XAI_API_KEY` throws at construction, otherwise the adapter is
returned with the base URL override (one trailing slash stripped) or its
default. -/
def createGrokAdapter (env : String → Option String) :
    Except GrokError GrokAdapter :=
  match env "XAI_API_KEY" with
  | none =>
      .error (.configuration
        "XAI_API_KEY is required to use the Grok provider. Set the environment variable and try again.")
  | some key =>
      if key = "" then
        .error (.configuration
          "XAI_API_KEY is required to use the Grok provider. Set the environment variable and try again.")
      else
        .ok { name := PROVIDER_NAME, defaultModel := DEFAULT_MODEL,
              apiKey := key,
              baseUrl := ((env "XAI_API_BASE_URL").map
                stripTrailingSlash).getD "https://api.x.ai/v1" }

/-- What the awaited `fetch`/`response.text()` of one call produced: a
response (status-ok flag, status text, raw body text), a `DOMException`
named `AbortError` (the cancellation token fired), or some other thrown
transport error. -/
inductive FetchOutcome where
  | response (ok : Bool) (statusText : String) (bodyText : String)
  | abortError
  | networkFailure

/-- `parsed = responseText ? JSON.parse(responseText) : undefined` with the
surrounding try/catch: an empty body is never parsed and yields
`undefined`; otherwise `JSON.parse` (modelled by the oracle `parseJson`,
`none` meaning it throws) either yields the parsed body or raises the
non-JSON transport error. -/
def parseResponseBody (parseJson : String → Option JVal) (bodyText : String) :
    Except GrokError (Option JVal) :=
  if bodyText = "" then .ok none
  else
    match parseJson bodyText with
    | some v => .ok (some v)
    | none => .error .nonJson

/-- `a || b` with a defined, already-evaluated right operand. -/
def jsOrD (a : Option JVal) (b : JVal) : JVal :=
  if jsTruthyO a then a.getD b else b

/-- The non-success-status error: message is the first truthy of
`parsed?.error?.message`, `parsed?.message`, the status text and
`'Unknown error'`; the code (shown only when truthy) is the first truthy
of `parsed?.error?.code` and `parsed?.code`. -/
def upstreamFailure (parsed : Option JVal) (statusText : String) : GrokError :=
  let message :=
    jsOrD (jsGetO (jsGetO parsed "error") "message")
      (jsOrD (jsGetO parsed "message")
        (jsOrD (some (.str statusText)) (.str "Unknown error")))
  let code := jsOr (jsGetO (jsGetO parsed "error") "code") (jsGetO parsed "code")
  .upstream (if jsTruthyO code then code else none) message

/-- `Array.isArray(parsed?.choices) ? parsed.choices[0] : undefined`: the
first choice of the parsed body, `undefined` unless `choices` is an
array with a first element. -/
def firstChoice (parsed : Option JVal) : Option JVal :=
  match jsGetO parsed "choices" with
  | some (.arr xs) => xs.head?
  | _ => none

/-- Everything one `generate` call leaves behind: its settled
promise (`result`), whether a deadline timer was started, whether `clear`
ran (the `finally` block), and whether an abort signal was passed to the
HTTP call. -/
structure GenAttempt where
  result : Except GrokError ProviderGenerateResult
  timerStarted : Bool
  timerCleared : Bool
  signalPassed : Bool

/-- The body of `generate`: build the cancellation resources and the
payload, run the HTTP call (its outcome is the `outcome` argument and the
measured wall-clock latency is `latencyMs`), parse the body, classify
non-success statuses, extract the first choice's text (empty text is the
empty-response error), normalize usage, and return the result object; an
`AbortError` becomes the timeout error, any other thrown error is
re-thrown, and the `finally` block always clears the deadline timer. -/
def generateCall (parseJson : String → Option JVal) (supportsAbort : Bool)
    (params : ProviderGenerateParams) (outcome : FetchOutcome)
    (latencyMs : Rat) : GenAttempt :=
  let ctl := buildAbortController params.timeoutMs supportsAbort
  let result : Except GrokError ProviderGenerateResult :=
    match buildPayload params with
    | .error e => .error e
    | .ok _payload =>
      match outcome with
      | .abortError => .error .timeout
      | .networkFailure => .error .fetchFailed
      | .response ok statusText bodyText =>
        match parseResponseBody parseJson bodyText with
        | .error e => .error e
        | .ok parsed =>
          if !ok then .error (upstreamFailure parsed statusText)
          else
            let content := extractTextFromChoice (firstChoice parsed)
            if content = "" then .error .emptyResponse
            else
              .ok { content := content,
                    rawResponse := parsed,
                    provider := PROVIDER_NAME,
                    model := jsQQD (jsGetO parsed "model")
                      (.str (resolvedModel params)),
                    usage := normalizeUsage (jsGetO parsed "usage")
                      (some latencyMs) }
  { result := result, timerStarted := ctl.timerStarted, timerCleared := true,
    signalPassed := ctl.hasController }

/-- Structural induction for `JVal` through the nested element and entry
lists. -/
theorem JVal.inductionOn (P : JVal → Prop)
    (hnull : P .null) (hbool : ∀ b, P (.bool b)) (hnum : ∀ q, P (.num q))
    (hstr : ∀ s, P (.str s))
    (harr : ∀ xs, (∀ x ∈ xs, P x) → P (.arr xs))
    (hobj : ∀ fs, (∀ kv ∈ fs, P kv.2) → P (.obj fs)) :
    ∀ v, P v
  | .null => hnull
  | .bool b => hbool b
  | .num q => hnum q
  | .str s => hstr s
  | .arr xs =>
      harr xs (fun x hx => JVal.inductionOn P hnull hbool hnum hstr harr hobj x)
  | .obj fs =>
      hobj fs
        (fun kv hkv => JVal.inductionOn P hnull hbool hnum hstr harr hobj kv.2)
termination_by v => sizeOf v
decreasing_by
  · have h1 := List.sizeOf_lt_of_mem hx
    simp only [JVal.arr.sizeOf_spec]
    omega
  · have h1 := List.sizeOf_lt_of_mem hkv
    have h2 : sizeOf kv.2 < sizeOf kv := by
      obtain ⟨a, b⟩ := kv
      simp only [Prod.mk.sizeOf_spec]
      omega
    simp only [JVal.obj.sizeOf_spec]
    omega

/-- Sanitized array elements are banned-free once the elements are. -/
theorem bannedFreeList_sanitizeList (xs : List JVal)
    (ih : ∀ x ∈ xs, bannedFree (sanitizeSchemaForGrok x) = true) :
    bannedFreeList (sanitizeList xs) = true := by
  induction xs with
  | nil => rfl
  | cons x xs ihx =>
      simp only [sanitizeList, bannedFreeList, Bool.and_eq_true]
      exact ⟨ih x (List.mem_cons_self x xs),
        ihx (fun y hy => ih y (List.mem_cons_of_mem x hy))⟩

/-- Sanitized object entries are banned-free once the entry values are. -/
theorem bannedFreeFields_sanitizeFields (fs : List (String × JVal))
    (ih : ∀ kv ∈ fs, bannedFree (sanitizeSchemaForGrok kv.2) = true) :
    bannedFreeFields (sanitizeFields fs) = true := by
  induction fs with
  | nil => rfl
  | cons kv fs ihf =>
      obtain ⟨k, v⟩ := kv
      by_cases hk : UNSUPPORTED_SCHEMA_PROPS.contains k
      · simp only [sanitizeFields, hk, if_true]
        exact ihf (fun y hy => ih y (List.mem_cons_of_mem _ hy))
      · simp only [sanitizeFields, hk, if_false, bannedFreeFields,
          Bool.and_eq_true, Bool.not_eq_true']
        exact ⟨⟨trivial, ih (k, v) (List.mem_cons_self _ _)⟩,
          ihf (fun y hy => ih y (List.mem_cons_of_mem _ hy))⟩

/-- No banned key survives sanitization, at any depth. -/
theorem bannedFree_sanitize (v : JVal) :
    bannedFree (sanitizeSchemaForGrok v) = true := by
  induction v using JVal.inductionOn with
  | hnull => rfl
  | hbool b => rfl
  | hnum q => rfl
  | hstr s => rfl
  | harr xs ih =>
      simpa only [sanitizeSchemaForGrok, bannedFree] using
        bannedFreeList_sanitizeList xs ih
  | hobj fs ih =>
      simpa only [sanitizeSchemaForGrok, bannedFree] using
        bannedFreeFields_sanitizeFields fs ih

/-- A banned-free array of sub-schemas is untouched element by element. -/
theorem sanitizeList_id (xs : List JVal)
    (ih : ∀ x ∈ xs, bannedFree x = true → sanitizeSchemaForGrok x = x)
    (h : bannedFreeList xs = true) : sanitizeList xs = xs := by
  induction xs with
  | nil => rfl
  | cons x xs ihx =>
      simp only [bannedFreeList, Bool.and_eq_true] at h
      simp only [sanitizeList]
      rw [ih x (List.mem_cons_self _ _) h.1,
        ihx (fun y hy hb => ih y (List.mem_cons_of_mem _ hy) hb) h.2]

/-- Banned-free object entries are untouched entry by entry. -/
theorem sanitizeFields_id (fs : List (String × JVal))
    (ih : ∀ kv ∈ fs, bannedFree kv.2 = true → sanitizeSchemaForGrok kv.2 = kv.2)
    (h : bannedFreeFields fs = true) : sanitizeFields fs = fs := by
  induction fs with
  | nil => rfl
  | cons kv fs ihf =>
      obtain ⟨k, v⟩ := kv
      simp only [bannedFreeFields, Bool.and_eq_true, Bool.not_eq_true'] at h
      simp only [sanitizeFields, h.1.1, Bool.false_eq_true, if_false]
      rw [ih (k, v) (List.mem_cons_self _ _) h.1.2,
        ihf (fun y hy hb => ih y (List.mem_cons_of_mem _ hy) hb) h.2]

/-- Sanitization does not change a tree that has no banned key anywhere:
every non-banned key and its value are preserved structurally and by
value. -/
theorem sanitize_id_of_bannedFree (v : JVal) :
    bannedFree v = true → sanitizeSchemaForGrok v = v := by
  induction v using JVal.inductionOn with
  | hnull => intro _; rfl
  | hbool b => intro _; rfl
  | hnum q => intro _; rfl
  | hstr s => intro _; rfl
  | harr xs ih =>
      intro h
      simp only [bannedFree] at h
      simp only [sanitizeSchemaForGrok]
      rw [sanitizeList_id xs ih h]
  | hobj fs ih =>
      intro h
      simp only [bannedFree] at h
      simp only [sanitizeSchemaForGrok]
      rw [sanitizeFields_id fs ih h]

/-- Sanitizing twice is the same as sanitizing once. -/
theorem sanitize_idem (v : JVal) :
    sanitizeSchemaForGrok (sanitizeSchemaForGrok v) = sanitizeSchemaForGrok v :=
  sanitize_id_of_bannedFree _ (bannedFree_sanitize v)

/-- Looking a non-banned key up in a sanitized object gives exactly the
sanitized original value (keys other than the banned ones are kept with
their sub-trees). -/
theorem jsGet_sanitize_obj (fs : List (String × JVal)) (k : String)
    (hk : UNSUPPORTED_SCHEMA_PROPS.contains k = false) :
    jsGet (sanitizeSchemaForGrok (.obj fs)) k =
      (jsGet (.obj fs) k).map sanitizeSchemaForGrok := by
  simp only [sanitizeSchemaForGrok, jsGet]
  induction fs with
  | nil => rfl
  | cons kv fs ihf =>
      obtain ⟨k', v⟩ := kv
      by_cases hb : UNSUPPORTED_SCHEMA_PROPS.contains k'
      · have hne : ¬ (k' = k) := by
          intro e
          rw [e, hk] at hb
          exact Bool.false_ne_true hb
        have hb' : k' ∈ UNSUPPORTED_SCHEMA_PROPS := by simpa using hb
        rw [show sanitizeFields ((k', v) :: fs) = sanitizeFields fs from by
          simp [sanitizeFields, hb']]
        rw [List.find?_cons_of_neg _ (by simpa using hne)]
        exact ihf
      · have hb' : k' ∉ UNSUPPORTED_SCHEMA_PROPS := by simpa using hb
        by_cases he : k' = k
        · subst he
          rw [show sanitizeFields ((k', v) :: fs) =
              (k', sanitizeSchemaForGrok v) :: sanitizeFields fs from by
            simp [sanitizeFields, hb']]
          rw [List.find?_cons_of_pos _ (by simp),
            List.find?_cons_of_pos _ (by simp)]
          rfl
        · rw [show sanitizeFields ((k', v) :: fs) =
              (k', sanitizeSchemaForGrok v) :: sanitizeFields fs from by
            simp [sanitizeFields, hb']]
          rw [List.find?_cons_of_neg _ (by simpa using he),
            List.find?_cons_of_neg _ (by simpa using he)]
          exact ihf

/-- `numEntry` looked up at its own key yields the guarded value. -/
theorem find?_numEntry_self (k : String) (x : Option JVal) :
    (numEntry k x).find? (fun kv => kv.1 = k) =
      (match x with
       | some (.num q) => some (k, JVal.num q)
       | _ => none) := by
  cases x with
  | none => rfl
  | some v => cases v <;> simp [numEntry]

/-- `numEntry` looked up at a different key yields nothing. -/
theorem find?_numEntry_ne (k k' : String) (x : Option JVal)
    (h : ¬ (k = k')) :
    (numEntry k x).find? (fun kv => kv.1 = k') = none := by
  cases x with
  | none => rfl
  | some v => cases v <;> simp [numEntry, h]

/-- The base payload section holds no key other than `model` and
`messages`. -/
theorem find?_base_ne (params : ProviderGenerateParams) (k : String)
    (h1 : ¬ ("model" = k)) (h2 : ¬ ("messages" = k)) :
    (basePayloadFields params).find? (fun kv => kv.1 = k) = none := by
  simp [basePayloadFields, h1, h2]

/-- The structured-output section holds no key other than
`response_format`. -/
theorem find?_rf_ne (params : ProviderGenerateParams)
    (rf : List (String × JVal)) (k : String)
    (hrf : responseFormatFields params = .ok rf)
    (hk : ¬ ("response_format" = k)) :
    rf.find? (fun kv => kv.1 = k) = none := by
  rcases hz : params.zodSchema with _ | (doc | msg) <;>
    simp [responseFormatFields, hz] at hrf
  · subst hrf; rfl
  · subst hrf; simp [hk]

/-- The sampling section holds no key other than the three sampling
keys. -/
theorem find?_sampling_ne (params : ProviderGenerateParams) (k : String)
    (h1 : ¬ ("temperature" = k)) (h2 : ¬ ("top_p" = k))
    (h3 : ¬ ("max_output_tokens" = k)) :
    (samplingFields params).find? (fun kv => kv.1 = k) = none := by
  simp only [samplingFields]
  rw [List.find?_append, List.find?_append, find?_numEntry_ne _ _ _ h1,
    find?_numEntry_ne _ _ _ h2, find?_numEntry_ne _ _ _ h3]
  rfl

/-- A successfully built payload is the three sections in order. -/
theorem buildPayload_ok (params : ProviderGenerateParams) (p : JVal)
    (h : buildPayload params = .ok p) :
    ∃ rf, responseFormatFields params = .ok rf ∧
      p = .obj (basePayloadFields params ++ samplingFields params ++ rf) := by
  cases hrf : responseFormatFields params with
  | error e => simp [buildPayload, hrf] at h
  | ok rf =>
      simp [buildPayload, hrf] at h
      exact ⟨rf, rfl, h.symm⟩

/-- The built payload always carries the resolved model. -/
theorem jsGet_payload_model (params : ProviderGenerateParams) (p : JVal)
    (h : buildPayload params = .ok p) :
    jsGet p "model" = some (.str (resolvedModel params)) := by
  obtain ⟨rf, hrf, rfl⟩ := buildPayload_ok params p h
  simp only [jsGet]
  rw [List.find?_append, List.find?_append]
  simp [basePayloadFields]

/-- The built payload always carries the single user message with the
prompt. -/
theorem jsGet_payload_messages (params : ProviderGenerateParams) (p : JVal)
    (h : buildPayload params = .ok p) :
    jsGet p "messages" =
      some (.arr [.obj [("role", .str "user"),
        ("content", .str params.prompt)]]) := by
  obtain ⟨rf, hrf, rfl⟩ := buildPayload_ok params p h
  simp only [jsGet]
  rw [List.find?_append, List.find?_append]
  simp [basePayloadFields]

/-- The built payload carries `temperature` exactly when the params field
is a number. -/
theorem jsGet_payload_temperature (params : ProviderGenerateParams)
    (p : JVal) (h : buildPayload params = .ok p) :
    jsGet p "temperature" =
      (match params.temperature with
       | some (.num q) => some (.num q)
       | _ => none) := by
  obtain ⟨rf, hrf, rfl⟩ := buildPayload_ok params p h
  simp only [jsGet]
  rw [List.find?_append, List.find?_append,
    find?_base_ne params _ (by decide) (by decide)]
  simp only [samplingFields]
  rw [List.find?_append, List.find?_append, find?_numEntry_self,
    find?_numEntry_ne _ _ _ (by decide), find?_numEntry_ne _ _ _ (by decide),
    find?_rf_ne params rf _ hrf (by decide)]
  rcases params.temperature with _ | v
  · rfl
  · cases v <;> rfl

/-- The built payload carries `top_p` exactly when the params field is a
number. -/
theorem jsGet_payload_top_p (params : ProviderGenerateParams)
    (p : JVal) (h : buildPayload params = .ok p) :
    jsGet p "top_p" =
      (match params.topP with
       | some (.num q) => some (.num q)
       | _ => none) := by
  obtain ⟨rf, hrf, rfl⟩ := buildPayload_ok params p h
  simp only [jsGet]
  rw [List.find?_append, List.find?_append,
    find?_base_ne params _ (by decide) (by decide)]
  simp only [samplingFields]
  rw [List.find?_append, List.find?_append,
    find?_numEntry_ne _ _ _ (by decide), find?_numEntry_self,
    find?_numEntry_ne _ _ _ (by decide),
    find?_rf_ne params rf _ hrf (by decide)]
  rcases params.topP with _ | v
  · rfl
  · cases v <;> rfl

/-- The built payload carries `max_output_tokens` exactly when the params
field is a number. -/
theorem jsGet_payload_max_output_tokens (params : ProviderGenerateParams)
    (p : JVal) (h : buildPayload params = .ok p) :
    jsGet p "max_output_tokens" =
      (match params.maxOutputTokens with
       | some (.num q) => some (.num q)
       | _ => none) := by
  obtain ⟨rf, hrf, rfl⟩ := buildPayload_ok params p h
  simp only [jsGet]
  rw [List.find?_append, List.find?_append,
    find?_base_ne params _ (by decide) (by decide)]
  simp only [samplingFields]
  rw [List.find?_append, List.find?_append,
    find?_numEntry_ne _ _ _ (by decide), find?_numEntry_ne _ _ _ (by decide),
    find?_numEntry_self, find?_rf_ne params rf _ hrf (by decide)]
  rcases params.maxOutputTokens with _ | v
  · rfl
  · cases v <;> rfl

/-- With a convertible schema descriptor, the built payload carries the
structured-output block. -/
theorem jsGet_payload_response_format (params : ProviderGenerateParams)
    (doc p : JVal) (hz : params.zodSchema = some (.ok doc))
    (h : buildPayload params = .ok p) :
    jsGet p "response_format" =
      some (.obj [("type", .str "json_schema"),
        ("json_schema",
         .obj [("name", .str (ensureSchemaName params.schemaName)),
               ("schema", sanitizeSchemaForGrok doc)])]) := by
  obtain ⟨rf, hrf, rfl⟩ := buildPayload_ok params p h
  simp only [responseFormatFields, hz, Except.ok.injEq] at hrf
  subst hrf
  simp only [jsGet]
  rw [List.find?_append, List.find?_append,
    find?_base_ne params _ (by decide) (by decide),
    find?_sampling_ne params _ (by decide) (by decide) (by decide)]
  rfl

/-- For a truthy name whose trim is non-empty, `ensureSchemaName` is the
trimmed name. -/
theorem ensureSchemaName_trims (n : String) (h : 0 < (jsTrim n).length) :
    ensureSchemaName (some n) = jsTrim n := by
  simp only [ensureSchemaName]
  rw [if_pos]
  refine ⟨?_, h⟩
  intro e
  subst e
  simp [jsTrim] at h

/-- For a name whose trim is empty, `ensureSchemaName` is the default. -/
theorem ensureSchemaName_default (n : String) (h : (jsTrim n).length = 0) :
    ensureSchemaName (some n) = "ResponseSchema" := by
  simp only [ensureSchemaName]
  rw [if_neg]
  rintro ⟨-, h2⟩
  omega

/-- C2: `sanitizeSchemaForGrok` returns a tree in which no banned keyword
(minLength, maxLength, minItems, maxItems, minContains, maxContains,
$schema) occurs as a key at any nesting depth (also inside arrays of
sub-schemas); every non-banned key is kept with its sanitized value, and a
tree with no banned keys anywhere is returned unchanged (in this pure
embedding, value preservation is exactly the deep-copy/no-mutation
contract); sanitization is idempotent; and null, booleans, numbers and
strings pass through unchanged. -/
theorem C2_sanitize_schema :
    (∀ v : JVal, bannedFree (sanitizeSchemaForGrok v) = true) ∧
    (∀ v : JVal, bannedFree v = true → sanitizeSchemaForGrok v = v) ∧
    (∀ v : JVal,
      sanitizeSchemaForGrok (sanitizeSchemaForGrok v) =
        sanitizeSchemaForGrok v) ∧
    (∀ (fs : List (String × JVal)) (k : String),
      UNSUPPORTED_SCHEMA_PROPS.contains k = false →
      jsGet (sanitizeSchemaForGrok (.obj fs)) k =
        (jsGet (.obj fs) k).map sanitizeSchemaForGrok) ∧
    sanitizeSchemaForGrok .null = .null ∧
    (∀ b, sanitizeSchemaForGrok (.bool b) = .bool b) ∧
    (∀ q, sanitizeSchemaForGrok (.num q) = .num q) ∧
    (∀ s, sanitizeSchemaForGrok (.str s) = .str s) ∧
    sanitizeSchemaForGrok
      (.obj [("type", .str "string"), ("minLength", .num 1),
        ("items", .arr [.obj [("maxItems", .num 3),
          ("type", .str "array")]])]) =
      .obj [("type", .str "string"),
        ("items", .arr [.obj [("type", .str "array")]])] :=
  ⟨bannedFree_sanitize, sanitize_id_of_bannedFree, sanitize_idem,
   jsGet_sanitize_obj, rfl, fun _ => rfl, fun _ => rfl, fun _ => rfl, rfl⟩

/-- C3: `buildPayload` for a bare prompt emits exactly the model (the
default) and the single user message; each sampling control is emitted
under its wire name exactly when the params field is numeric, so a payload
built with topP 0.9 carries `top_p` 0.9 and no other sampling key. -/
theorem C3_sparse_payload :
    (buildPayload { prompt := "hi" } =
      .ok (.obj [("model", .str DEFAULT_MODEL),
        ("messages", .arr [.obj [("role", .str "user"),
          ("content", .str "hi")]])])) ∧
    (buildPayload { prompt := "hi", topP := some (.num ((9:Rat)/10)) } =
      .ok (.obj [("model", .str DEFAULT_MODEL),
        ("messages", .arr [.obj [("role", .str "user"),
          ("content", .str "hi")]]),
        ("top_p", .num ((9:Rat)/10))])) ∧
    (∀ (params : ProviderGenerateParams) (p : JVal),
      buildPayload params = .ok p →
      jsGet p "model" = some (.str (resolvedModel params)) ∧
      jsGet p "messages" =
        some (.arr [.obj [("role", .str "user"),
          ("content", .str params.prompt)]]) ∧
      jsGet p "temperature" =
        (match params.temperature with
         | some (.num q) => some (.num q)
         | _ => none) ∧
      jsGet p "top_p" =
        (match params.topP with
         | some (.num q) => some (.num q)
         | _ => none) ∧
      jsGet p "max_output_tokens" =
        (match params.maxOutputTokens with
         | some (.num q) => some (.num q)
         | _ => none)) := by
  refine ⟨rfl, rfl, ?_⟩
  intro params p h
  exact ⟨jsGet_payload_model params p h, jsGet_payload_messages params p h,
    jsGet_payload_temperature params p h, jsGet_payload_top_p params p h,
    jsGet_payload_max_output_tokens params p h⟩

/-- C4: with a schema descriptor, `buildPayload` attaches the converted,
sanitized schema under `response_format` of shape
`type: json_schema, json_schema: (name, schema)`; the name is the trimmed
schemaName (" Foo " gives "Foo") or the default "ResponseSchema" when the
name is absent, empty or whitespace-only; and a throwing conversion
collaborator makes the build fail with the wrapped conversion error
instead of silently dropping the block. -/
theorem C4_schema_block :
    (∀ (params : ProviderGenerateParams) (doc p : JVal),
      params.zodSchema = some (.ok doc) → buildPayload params = .ok p →
      jsGet p "response_format" =
        some (.obj [("type", .str "json_schema"),
          ("json_schema",
           .obj [("name", .str (ensureSchemaName params.schemaName)),
                 ("schema", sanitizeSchemaForGrok doc)])])) ∧
    (∀ (params : ProviderGenerateParams) (msg : String),
      params.zodSchema = some (.error msg) →
      buildPayload params =
        .error (.schemaConversion ("Failed to convert schema: " ++ msg))) ∧
    (∀ n : String, 0 < (jsTrim n).length →
      ensureSchemaName (some n) = jsTrim n) ∧
    (∀ n : String, (jsTrim n).length = 0 →
      ensureSchemaName (some n) = "ResponseSchema") ∧
    ensureSchemaName none = "ResponseSchema" ∧
    ensureSchemaName (some " Foo ") = "Foo" ∧
    ensureSchemaName (some "   ") = "ResponseSchema" := by
  refine ⟨fun params doc p hz h => jsGet_payload_response_format params doc p hz h,
    ?_, ensureSchemaName_trims,
    ensureSchemaName_default, rfl, by decide, by decide⟩
  intro params msg hz
  simp [buildPayload, responseFormatFields, hz]

/-- C8: a missing (or empty, hence falsy) `XAI_API_KEY` makes
`createGrokAdapter` throw the configuration error at construction — no
adapter value exists to defer the failure to a later `generate` call —
while a non-empty credential yields an adapter carrying the fixed provider
name, the default model and the credential. -/
theorem C8_construction_fail_fast :
    (∀ env : String → Option String, env "XAI_API_KEY" = none →
      createGrokAdapter env = .error (.configuration
        "XAI_API_KEY is required to use the Grok provider. Set the environment variable and try again.")) ∧
    (∀ env : String → Option String, env "XAI_API_KEY" = some "" →
      createGrokAdapter env = .error (.configuration
        "XAI_API_KEY is required to use the Grok provider. Set the environment variable and try again.")) ∧
    (∀ (env : String → Option String) (key : String),
      env "XAI_API_KEY" = some key → key ≠ "" →
      ∃ a : GrokAdapter, createGrokAdapter env = .ok a ∧
        a.name = PROVIDER_NAME ∧ a.defaultModel = DEFAULT_MODEL ∧
        a.apiKey = key) := by
  refine ⟨?_, ?_, ?_⟩
  · intro env h
    simp [createGrokAdapter, h]
  · intro env h
    simp [createGrokAdapter, h]
  · intro env key h hk
    simp only [createGrokAdapter, h]
    rw [if_neg hk]
    exact ⟨_, rfl, rfl, rfl, rfl⟩

/-- C9: `buildAbortController` creates a controller (whose signal the HTTP
call receives) with a pending deadline timer exactly when timeoutMs is a
positive number and the environment supports cancellation; an HTTP call
that ends in an AbortError makes `generate` reject with the timeout
error; and on every exit path of `generate` the `finally` block has
cleared the deadline timer, so no timer remains pending. -/
theorem C9_timeout_and_timer_release :
    (∀ (t : Rat) (sa : Bool), 0 < t → sa = true →
      buildAbortController (some t) sa = ⟨true, true⟩) ∧
    (∀ sa, buildAbortController none sa = ⟨false, false⟩) ∧
    (∀ (t : Rat) (sa : Bool), t ≤ 0 →
      buildAbortController (some t) sa = ⟨false, false⟩) ∧
    (∀ t : Rat, buildAbortController (some t) false = ⟨false, false⟩) ∧
    (∀ pj sa params latency payload, buildPayload params = .ok payload →
      (generateCall pj sa params .abortError latency).result =
        .error .timeout) ∧
    (∀ pj sa params outcome latency,
      ((generateCall pj sa params outcome latency).timerStarted &&
        !(generateCall pj sa params outcome latency).timerCleared) = false) ∧
    (∀ pj sa params outcome latency,
      (generateCall pj sa params outcome latency).signalPassed =
        (buildAbortController params.timeoutMs sa).hasController) := by
  refine ⟨?_, fun _ => rfl, ?_, ?_, ?_, ?_, ?_⟩
  · intro t sa ht hsa
    subst hsa
    simp [buildAbortController, ht.not_le]
  · intro t sa ht
    simp [buildAbortController, ht]
  · intro t
    simp [buildAbortController]
  · intro pj sa params latency payload h
    simp [generateCall, h]
  · intro pj sa params outcome latency
    simp [generateCall]
  · intro pj sa params outcome latency
    rfl

/-- C10: a success-status response with an empty body makes `generate`
reject with the empty-response error without ever invoking the JSON
parser (the statement quantifies over every parse oracle, including the
one that always throws); a success response whose extracted text is empty
rejects with the same error; and the non-JSON transport error occurs only
for a response outcome with a non-empty body on which the parser throws. -/
theorem C10_empty_body_never_parsed :
    (∀ pj sa params statusText latency payload,
      buildPayload params = .ok payload →
      (generateCall pj sa params (.response true statusText "") latency).result =
        .error .emptyResponse) ∧
    (∀ pj sa params statusText bodyText parsed latency payload,
      buildPayload params = .ok payload →
      parseResponseBody pj bodyText = .ok parsed →
      extractTextFromChoice (firstChoice parsed) = "" →
      (generateCall pj sa params (.response true statusText bodyText) latency).result =
        .error .emptyResponse) ∧
    (∀ pj sa params outcome latency payload,
      buildPayload params = .ok payload →
      (generateCall pj sa params outcome latency).result = .error .nonJson →
      ∃ ok statusText bodyText, outcome = .response ok statusText bodyText ∧
        bodyText ≠ "" ∧ pj bodyText = none) := by
  refine ⟨?_, ?_, ?_⟩
  · intro pj sa params statusText latency payload h
    simp [generateCall, h, parseResponseBody, firstChoice,
      extractTextFromChoice, jsTruthyO, jsGetO]
  · intro pj sa params statusText bodyText parsed latency payload h hp hx
    simp [generateCall, h, hp, hx]
  · intro pj sa params outcome latency payload h hr
    cases outcome with
    | abortError => simp [generateCall, h] at hr
    | networkFailure => simp [generateCall, h] at hr
    | response ok statusText bodyText =>
        refine ⟨ok, statusText, bodyText, rfl, ?_⟩
        by_cases hbt : bodyText = ""
        · subst hbt
          exfalso
          cases ok <;>
            simp [generateCall, h, parseResponseBody, firstChoice,
              extractTextFromChoice, jsTruthyO, jsGetO, upstreamFailure] at hr
        · cases hpj : pj bodyText with
          | none => exact ⟨hbt, rfl⟩
          | some v =>
              exfalso
              cases ok with
              | false =>
                  simp [generateCall, h, parseResponseBody, hbt, hpj,
                    upstreamFailure] at hr
              | true =>
                  by_cases hx :
                      extractTextFromChoice (firstChoice (some v)) = "" <;>
                    simp [generateCall, h, parseResponseBody, hbt, hpj,
                      hx] at hr

/-- `a ?? b` keeps a defined non-null `a`. -/
theorem jsQQ_defined (t : JVal) (b : Option JVal) (h : t ≠ .null) :
    jsQQ (some t) b = some t := by
  cases t <;> simp [jsQQ] <;> exact absurd rfl h

/-- `a ?? b` falls through on `null`/`undefined`. -/
theorem jsQQ_nullish (a b : Option JVal)
    (h : a = none ∨ a = some .null) : jsQQ a b = b := by
  rcases h with h | h <;> subst h <;> rfl

/-- `a ?? b` with a defined right operand keeps a defined non-null `a`. -/
theorem jsQQD_defined (t : JVal) (b : JVal) (h : t ≠ .null) :
    jsQQD (some t) b = t := by
  cases t <;> simp [jsQQD] <;> exact absurd rfl h

/-- `a ?? b` with a defined right operand falls through on
`null`/`undefined`. -/
theorem jsQQD_nullish (a : Option JVal) (b : JVal)
    (h : a = none ∨ a = some .null) : jsQQD a b = b := by
  rcases h with h | h <;> subst h <;> rfl

/-- C5 counterexample: latencyMs supplied as 0 is an available latency,
yet `normalizeUsage` with absent rawUsage returns `undefined` (0 is falsy)
instead of a record carrying only the latency. -/
theorem C5_counterexample_latency_zero :
    normalizeUsage none (some 0) = none ∧
    ¬ ∃ u : UsageStats, normalizeUsage none (some 0) = some u := by
  refine ⟨rfl, ?_⟩
  rintro ⟨u, hu⟩
  exact Option.noConfusion hu

/-- C5 (amended): with falsy rawUsage, `normalizeUsage` yields a
latency-only record when latencyMs is supplied and non-zero (truthy), and
`undefined` when latencyMs is absent or zero; with truthy rawUsage it maps
the snake_case/camelCase prompt/input and completion/output variants into
promptTokens/completionTokens, attaches latencyMs verbatim, uses a
non-nullish explicit total verbatim, derives the total as the sum when no
explicit total exists and both counts are numbers, and leaves the total
absent otherwise; the claim's two concrete examples give totals 15 and 99
respectively. -/
theorem C5_usage_normalization :
    (∀ (raw : Option JVal) (l : Rat), jsTruthyO raw = false → l ≠ 0 →
      normalizeUsage raw (some l) = some ⟨none, none, none, some l⟩) ∧
    (∀ raw, jsTruthyO raw = false → normalizeUsage raw none = none) ∧
    (∀ raw, jsTruthyO raw = false → normalizeUsage raw (some 0) = none) ∧
    (∀ (raw : Option JVal) (l : Option Rat) (u : UsageStats),
      jsTruthyO raw = true → normalizeUsage raw l = some u →
      u.latencyMs = l ∧
      u.promptTokens =
        jsQQ (jsGetO raw "prompt_tokens")
          (jsQQ (jsGetO raw "promptTokens")
            (jsQQ (jsGetO raw "input_tokens") (jsGetO raw "inputTokens"))) ∧
      u.completionTokens =
        jsQQ (jsGetO raw "completion_tokens")
          (jsQQ (jsGetO raw "completionTokens")
            (jsQQ (jsGetO raw "output_tokens") (jsGetO raw "outputTokens"))) ∧
      (∀ t, jsGetO raw "total_tokens" = some t → t ≠ .null →
        u.totalTokens = some t) ∧
      (∀ t, (jsGetO raw "total_tokens" = none ∨
             jsGetO raw "total_tokens" = some .null) →
        jsGetO raw "totalTokens" = some t → t ≠ .null →
        u.totalTokens = some t) ∧
      ((jsGetO raw "total_tokens" = none ∨
        jsGetO raw "total_tokens" = some .null) →
       (jsGetO raw "totalTokens" = none ∨
        jsGetO raw "totalTokens" = some .null) →
       (∀ p c : Rat, u.promptTokens = some (.num p) →
          u.completionTokens = some (.num c) →
          u.totalTokens = some (.num (p + c))) ∧
       (((∀ p : Rat, u.promptTokens ≠ some (.num p)) ∨
         (∀ c : Rat, u.completionTokens ≠ some (.num c))) →
        u.totalTokens = none))) ∧
    (normalizeUsage
      (some (.obj [("prompt_tokens", .num 10), ("completion_tokens", .num 5)]))
      (some 42) =
      some ⟨some (.num 10), some (.num 5), some (.num 15), some 42⟩) ∧
    (normalizeUsage
      (some (.obj [("total_tokens", .num 99), ("prompt_tokens", .num 10),
        ("completion_tokens", .num 5)]))
      (some 42) =
      some ⟨some (.num 10), some (.num 5), some (.num 99), some 42⟩) ∧
    (normalizeUsage
      (some (.obj [("inputTokens", .num 7), ("output_tokens", .num 2)]))
      none =
      some ⟨some (.num 7), some (.num 2), some (.num 9), none⟩) := by
  refine ⟨?_, ?_, ?_, ?_, ?_, ?_, ?_⟩
  · intro raw l hraw hl
    simp [normalizeUsage, hraw, hl]
  · intro raw hraw
    simp [normalizeUsage, hraw]
  · intro raw hraw
    simp [normalizeUsage, hraw]
  · intro raw l u hraw hu
    simp only [normalizeUsage, hraw, Bool.not_true, Bool.false_eq_true,
      if_false, Option.some.injEq] at hu
    subst hu
    refine ⟨rfl, rfl, rfl, ?_, ?_, ?_⟩
    · intro t h1 hn
      simp only [h1, jsQQ_defined t _ hn]
    · intro t h1 h2 hn
      simp only [jsQQ_nullish _ _ h1, h2, jsQQ_defined t _ hn]
    · intro h1 h2
      rw [jsQQ_nullish _ _ h1, jsQQ_nullish _ _ h2]
      constructor
      · intro p c hp hc
        simp only at hp hc
        rw [hp, hc]
      · intro hbad
        rcases hpt : jsQQ (jsGetO raw "prompt_tokens")
            (jsQQ (jsGetO raw "promptTokens")
              (jsQQ (jsGetO raw "input_tokens")
                (jsGetO raw "inputTokens"))) with _ | v
        · simp [hpt]
        · rcases hct : jsQQ (jsGetO raw "completion_tokens")
              (jsQQ (jsGetO raw "completionTokens")
                (jsQQ (jsGetO raw "output_tokens")
                  (jsGetO raw "outputTokens"))) with _ | w
          · simp [hpt, hct]
          · simp only at hbad
            rcases hbad with hbad | hbad
            · have hv : ∀ p : Rat, v ≠ .num p := by
                intro p hp
                exact hbad p (by rw [hpt, hp])
              simp [hpt, hct]
              cases v <;> simp_all
            · have hw : ∀ c : Rat, w ≠ .num c := by
                intro c hc
                exact hbad c (by rw [hct, hc])
              simp [hpt, hct]
              cases v <;> cases w <;> simp_all
  · have h15 : normalizeUsage
        (some (.obj [("prompt_tokens", .num 10),
          ("completion_tokens", .num 5)])) (some 42) =
        some ⟨some (.num 10), some (.num 5), some (.num ((10:Rat) + 5)),
          some 42⟩ := rfl
    rw [h15]
    norm_num
  · rfl
  · have h9 : normalizeUsage
        (some (.obj [("inputTokens", .num 7), ("output_tokens", .num 2)]))
        none =
        some ⟨some (.num 7), some (.num 2), some (.num ((7:Rat) + 2)),
          none⟩ := rfl
    rw [h9]
    norm_num

/-- Unfolds `extractTextFromChoice` for a choice of shape
`(message := m)` with a non-null message object. -/
theorem extract_message_obj (m : JVal) (hm : m ≠ .null) :
    extractTextFromChoice (some (.obj [("message", m)])) =
      (match jsGet m "content" with
       | some (.str s) => s
       | some (.arr parts) =>
           (match scanParts parts with
            | some s => s
            | none => messageTextField m)
       | _ => messageTextField m) := by
  simp only [extractTextFromChoice, jsTruthyO, jsTruthy, Bool.not_true,
    Bool.false_eq_true, if_false, Option.getD_some]
  rw [show jsGet (JVal.obj [("message", m)]) "message" = some m from by
    simp [jsGet]]
  rw [show jsGet (JVal.obj [("message", m)]) "delta" = none from by
    simp [jsGet]]
  rw [jsQQD_defined m _ hm]

/-- A falsy part (null, false, 0, the empty string) is skipped by the part
scan. -/
theorem scanParts_falsy (p : JVal) (rest : List JVal)
    (h : jsTruthy p = false) : scanParts (p :: rest) = scanParts rest := by
  simp [scanParts, h]

/-- A non-empty string part wins the scan immediately, whatever follows. -/
theorem scanParts_str (s : String) (rest : List JVal) (h : s ≠ "") :
    scanParts (.str s :: rest) = some s := by
  simp [scanParts, jsTruthy, h]

/-- A part with a string `text` field wins the scan immediately. -/
theorem scanParts_text (p : JVal) (rest : List JVal) (s : String)
    (h : jsGet p "text" = some (.str s)) :
    scanParts (p :: rest) = some s := by
  obtain ⟨fs, rfl⟩ : ∃ fs, p = JVal.obj fs := by
    cases p <;> first | exact ⟨_, rfl⟩ | simp [jsGet] at h
  simp only [scanParts]
  rw [if_neg (by simp [jsTruthy])]
  simp [h]

/-- With no string `text` field, a part with a string `output_text` field
wins the scan immediately. -/
theorem scanParts_output_text (p : JVal) (rest : List JVal) (s : String)
    (ht : ∀ s', jsGet p "text" ≠ some (.str s'))
    (h : jsGet p "output_text" = some (.str s)) :
    scanParts (p :: rest) = some s := by
  obtain ⟨fs, rfl⟩ : ∃ fs, p = JVal.obj fs := by
    cases p <;> first | exact ⟨_, rfl⟩ | simp [jsGet] at h
  simp only [scanParts]
  rw [if_neg (by simp [jsTruthy])]
  rcases hx : jsGet (JVal.obj fs) "text" with _ | v
  · simp [hx, h]
  · cases v with
    | str s2 => exact absurd hx (ht s2)
    | null => simp [hx, h]
    | bool b => simp [hx, h]
    | num q => simp [hx, h]
    | arr xs => simp [hx, h]
    | obj fs2 => simp [hx, h]

/-- With no string `text` or `output_text` field, a part with a string
`data` field wins the scan immediately. -/
theorem scanParts_data (p : JVal) (rest : List JVal) (s : String)
    (ht : ∀ s', jsGet p "text" ≠ some (.str s'))
    (ho : ∀ s', jsGet p "output_text" ≠ some (.str s'))
    (h : jsGet p "data" = some (.str s)) :
    scanParts (p :: rest) = some s := by
  obtain ⟨fs, rfl⟩ : ∃ fs, p = JVal.obj fs := by
    cases p <;> first | exact ⟨_, rfl⟩ | simp [jsGet] at h
  simp only [scanParts]
  rw [if_neg (by simp [jsTruthy])]
  rcases hx : jsGet (JVal.obj fs) "text" with _ | v
  · rcases hy : jsGet (JVal.obj fs) "output_text" with _ | w
    · simp [hx, hy, h]
    · cases w with
      | str s2 => exact absurd hy (ho s2)
      | null => simp [hx, hy, h]
      | bool b => simp [hx, hy, h]
      | num q => simp [hx, hy, h]
      | arr xs => simp [hx, hy, h]
      | obj fs2 => simp [hx, hy, h]
  · cases v with
    | str s2 => exact absurd hx (ht s2)
    | null =>
        rcases hy : jsGet (JVal.obj fs) "output_text" with _ | w
        · simp [hx, hy, h]
        · cases w with
          | str s2 => exact absurd hy (ho s2)
          | null => simp [hx, hy, h]
          | bool b => simp [hx, hy, h]
          | num q => simp [hx, hy, h]
          | arr xs => simp [hx, hy, h]
          | obj fs2 => simp [hx, hy, h]
    | bool b =>
        rcases hy : jsGet (JVal.obj fs) "output_text" with _ | w
        · simp [hx, hy, h]
        · cases w with
          | str s2 => exact absurd hy (ho s2)
          | null => simp [hx, hy, h]
          | bool b2 => simp [hx, hy, h]
          | num q => simp [hx, hy, h]
          | arr xs => simp [hx, hy, h]
          | obj fs2 => simp [hx, hy, h]
    | num q =>
        rcases hy : jsGet (JVal.obj fs) "output_text" with _ | w
        · simp [hx, hy, h]
        · cases w with
          | str s2 => exact absurd hy (ho s2)
          | null => simp [hx, hy, h]
          | bool b => simp [hx, hy, h]
          | num q2 => simp [hx, hy, h]
          | arr xs => simp [hx, hy, h]
          | obj fs2 => simp [hx, hy, h]
    | arr xs =>
        rcases hy : jsGet (JVal.obj fs) "output_text" with _ | w
        · simp [hx, hy, h]
        · cases w with
          | str s2 => exact absurd hy (ho s2)
          | null => simp [hx, hy, h]
          | bool b => simp [hx, hy, h]
          | num q => simp [hx, hy, h]
          | arr xs2 => simp [hx, hy, h]
          | obj fs2 => simp [hx, hy, h]
    | obj fs2 =>
        rcases hy : jsGet (JVal.obj fs) "output_text" with _ | w
        · simp [hx, hy, h]
        · cases w with
          | str s2 => exact absurd hy (ho s2)
          | null => simp [hx, hy, h]
          | bool b => simp [hx, hy, h]
          | num q => simp [hx, hy, h]
          | arr xs => simp [hx, hy, h]
          | obj fs3 => simp [hx, hy, h]

/-- The fallthrough reads a string `text` field off the message. -/
theorem messageTextField_str (m : JVal) (t : String)
    (h : jsGet m "text" = some (.str t)) : messageTextField m = t := by
  simp [messageTextField, h]

/-- Without a string `text` field the fallthrough is the empty string. -/
theorem messageTextField_empty (m : JVal)
    (h : ∀ t, jsGet m "text" ≠ some (.str t)) : messageTextField m = "" := by
  rcases hx : jsGet m "text" with _ | v
  · simp [messageTextField, hx]
  · cases v with
    | str t => exact absurd hx (h t)
    | null => simp [messageTextField, hx]
    | bool b => simp [messageTextField, hx]
    | num q => simp [messageTextField, hx]
    | arr xs => simp [messageTextField, hx]
    | obj fs => simp [messageTextField, hx]

/-- C6 counterexample: for the choice whose content list starts with the
empty-string part, `extractTextFromChoice` returns "hi" from the second
part — the first part, although itself a string, is skipped as falsy, so
it does not yield "" as the claim's first-match rule would require. -/
theorem C6_counterexample_empty_string_part :
    extractTextFromChoice (some (.obj [("message", .obj [("content",
      .arr [.str "", .obj [("text", .str "hi")]])])])) = "hi" ∧
    ("hi" : String) ≠ "" := by
  exact ⟨rfl, by decide⟩

/-- C6 (amended): `extractTextFromChoice` applies its strategies in order
— a string content is returned directly; a list content is scanned in
order, where falsy parts (null, undefined, false, 0 and the empty string)
are skipped and the first remaining part that is itself a (necessarily
non-empty) string, or carries a string under text, then output_text, then
data, yields that string with later parts not inspected; when no part
matches, or the content is neither string nor list, a string `text` field
of the message is returned, else the empty string; a falsy choice yields
the empty string.  The claim's three examples evaluate as stated. -/
theorem C6_extract_text_strategies :
    (∀ (m : JVal) (s : String), jsGet m "content" = some (.str s) →
      extractTextFromChoice (some (.obj [("message", m)])) = s) ∧
    (∀ (m : JVal) (parts : List JVal) (s : String),
      jsGet m "content" = some (.arr parts) → scanParts parts = some s →
      extractTextFromChoice (some (.obj [("message", m)])) = s) ∧
    (∀ (m : JVal) (parts : List JVal),
      jsGet m "content" = some (.arr parts) → scanParts parts = none →
      extractTextFromChoice (some (.obj [("message", m)])) =
        messageTextField m) ∧
    (∀ m : JVal, m ≠ .null →
      (∀ s, jsGet m "content" ≠ some (.str s)) →
      (∀ ps, jsGet m "content" ≠ some (.arr ps)) →
      extractTextFromChoice (some (.obj [("message", m)])) =
        messageTextField m) ∧
    (∀ c : Option JVal, jsTruthyO c = false →
      extractTextFromChoice c = "") ∧
    scanParts [] = none ∧
    (∀ (p : JVal) (rest : List JVal), jsTruthy p = false →
      scanParts (p :: rest) = scanParts rest) ∧
    (∀ (s : String) (rest : List JVal), s ≠ "" →
      scanParts (.str s :: rest) = some s) ∧
    (∀ (p : JVal) (rest : List JVal) (s : String),
      jsGet p "text" = some (.str s) → scanParts (p :: rest) = some s) ∧
    (∀ (p : JVal) (rest : List JVal) (s : String),
      (∀ s', jsGet p "text" ≠ some (.str s')) →
      jsGet p "output_text" = some (.str s) →
      scanParts (p :: rest) = some s) ∧
    (∀ (p : JVal) (rest : List JVal) (s : String),
      (∀ s', jsGet p "text" ≠ some (.str s')) →
      (∀ s', jsGet p "output_text" ≠ some (.str s')) →
      jsGet p "data" = some (.str s) → scanParts (p :: rest) = some s) ∧
    (∀ (m : JVal) (t : String), jsGet m "text" = some (.str t) →
      messageTextField m = t) ∧
    (∀ m : JVal, (∀ t, jsGet m "text" ≠ some (.str t)) →
      messageTextField m = "") ∧
    (extractTextFromChoice
      (some (.obj [("message", .obj [("content", .str "hello")])])) =
      "hello") ∧
    (extractTextFromChoice
      (some (.obj [("message", .obj [("content",
        .arr [.obj [("type", .str "x")], .obj [("text", .str "hi")]])])])) =
      "hi") ∧
    (extractTextFromChoice
      (some (.obj [("message", .obj [("content", .arr [])])])) = "") := by
  refine ⟨?_, ?_, ?_, ?_, ?_, rfl, scanParts_falsy, scanParts_str,
    scanParts_text, scanParts_output_text, scanParts_data,
    messageTextField_str, messageTextField_empty, rfl, rfl, rfl⟩
  · intro m s h
    have hm : m ≠ .null := by
      rintro rfl
      simp [jsGet] at h
    rw [extract_message_obj m hm]
    simp [h]
  · intro m parts s h hs
    have hm : m ≠ .null := by
      rintro rfl
      simp [jsGet] at h
    rw [extract_message_obj m hm]
    simp [h, hs]
  · intro m parts h hs
    have hm : m ≠ .null := by
      rintro rfl
      simp [jsGet] at h
    rw [extract_message_obj m hm]
    simp [h, hs]
  · intro m hm hstr harr
    rw [extract_message_obj m hm]
    rcases hc : jsGet m "content" with _ | v
    · simp
    · cases v with
      | str s => exact absurd hc (hstr s)
      | arr ps => exact absurd hc (harr ps)
      | null => simp
      | bool b => simp
      | num q => simp
      | obj fs => simp
  · intro c hc
    simp [extractTextFromChoice, hc]

/-- Truthiness of a defined value unfolds to `jsTruthy`. -/
theorem jsTruthyO_some (v : JVal) : jsTruthyO (some v) = jsTruthy v := rfl

/-- C7: a non-success status whose body parses makes `generate` reject
with the upstream-error classification; that error carries the body's
`error.code` and `error.message` when they are truthy, falls back to a
truthy top-level `message` and then to a non-empty status line for the
message, shows a code only when one is truthy; in particular the HTTP 429
example with code "rate_limited" rejects with exactly that code. -/
theorem C7_upstream_error :
    ((generateCall
        (fun _ => some (.obj [("error",
          .obj [("code", .str "rate_limited"),
                ("message", .str "slow down")])]))
        true { prompt := "x" } (.response false "Too Many Requests" "b")
        5).result =
      .error (.upstream (some (.str "rate_limited")) (.str "slow down"))) ∧
    (∀ pj sa params statusText bodyText parsed latency payload,
      buildPayload params = .ok payload → bodyText ≠ "" →
      pj bodyText = some parsed →
      (generateCall pj sa params (.response false statusText bodyText)
        latency).result =
        .error (upstreamFailure (some parsed) statusText)) ∧
    (∀ (parsed : Option JVal) (statusText : String) (c m : JVal),
      jsGetO (jsGetO parsed "error") "code" = some c → jsTruthy c = true →
      jsGetO (jsGetO parsed "error") "message" = some m →
      jsTruthy m = true →
      upstreamFailure parsed statusText = .upstream (some c) m) ∧
    (∀ (parsed : Option JVal) (statusText : String) (m : JVal),
      jsTruthyO (jsGetO (jsGetO parsed "error") "message") = false →
      jsGetO parsed "message" = some m → jsTruthy m = true →
      ∃ c, upstreamFailure parsed statusText = .upstream c m) ∧
    (∀ (parsed : Option JVal) (statusText : String),
      jsTruthyO (jsGetO (jsGetO parsed "error") "message") = false →
      jsTruthyO (jsGetO parsed "message") = false → statusText ≠ "" →
      ∃ c, upstreamFailure parsed statusText =
        .upstream c (.str statusText)) ∧
    (∀ (parsed : Option JVal) (statusText : String),
      jsTruthyO (jsGetO (jsGetO parsed "error") "code") = false →
      jsTruthyO (jsGetO parsed "code") = false →
      ∃ m, upstreamFailure parsed statusText = .upstream none m) := by
  refine ⟨rfl, ?_, ?_, ?_, ?_, ?_⟩
  · intro pj sa params statusText bodyText parsed latency payload hbp hbt hpj
    simp [generateCall, hbp, parseResponseBody, hbt, hpj]
  · intro parsed statusText c m hc htc hm htm
    simp [upstreamFailure, jsOrD, jsOr, jsTruthyO, hc, htc, hm, htm]
  · intro parsed statusText m hem hm htm
    refine ⟨if jsTruthyO (jsOr (jsGetO (jsGetO parsed "error") "code")
        (jsGetO parsed "code")) = true then
        jsOr (jsGetO (jsGetO parsed "error") "code") (jsGetO parsed "code")
      else none, ?_⟩
    simp [upstreamFailure, jsOrD, jsTruthyO_some, hem, hm, htm]
  · intro parsed statusText hem hpm hst
    refine ⟨if jsTruthyO (jsOr (jsGetO (jsGetO parsed "error") "code")
        (jsGetO parsed "code")) = true then
        jsOr (jsGetO (jsGetO parsed "error") "code") (jsGetO parsed "code")
      else none, ?_⟩
    simp [upstreamFailure, jsOrD, jsTruthyO_some, jsTruthy, hem, hpm, hst]
  · intro parsed statusText hec hpc
    refine ⟨jsOrD (jsGetO (jsGetO parsed "error") "message")
      (jsOrD (jsGetO parsed "message")
        (jsOrD (some (.str statusText)) (.str "Unknown error"))), ?_⟩
    simp [upstreamFailure, jsOr, hec, hpc]

/-- C1: a success-status response whose parsed body yields extractable
non-empty text makes `generate` resolve with that text as content, the
parsed body as rawResponse, the adapter name "grok" as provider, the
body's model when present and non-null and otherwise the payload's
resolved model, and the normalized usage; the mock end-to-end example
(body with model "m1" and one choice saying "4") yields content "4",
model "m1" and provider "grok". -/
theorem C1_generate_success :
    (∀ pj sa params statusText bodyText parsed latency payload m,
      buildPayload params = .ok payload → bodyText ≠ "" →
      pj bodyText = some parsed →
      extractTextFromChoice (firstChoice (some parsed)) ≠ "" →
      jsGet parsed "model" = some m → m ≠ .null →
      (generateCall pj sa params (.response true statusText bodyText)
        latency).result =
        .ok { content := extractTextFromChoice (firstChoice (some parsed)),
              rawResponse := some parsed,
              provider := PROVIDER_NAME,
              model := m,
              usage := normalizeUsage (jsGet parsed "usage")
                (some latency) }) ∧
    (∀ pj sa params statusText bodyText parsed latency payload,
      buildPayload params = .ok payload → bodyText ≠ "" →
      pj bodyText = some parsed →
      extractTextFromChoice (firstChoice (some parsed)) ≠ "" →
      (jsGet parsed "model" = none ∨ jsGet parsed "model" = some .null) →
      (generateCall pj sa params (.response true statusText bodyText)
        latency).result =
        .ok { content := extractTextFromChoice (firstChoice (some parsed)),
              rawResponse := some parsed,
              provider := PROVIDER_NAME,
              model := .str (resolvedModel params),
              usage := normalizeUsage (jsGet parsed "usage")
                (some latency) }) ∧
    ((generateCall
        (fun _ => some (.obj [("model", .str "m1"),
          ("choices", .arr [.obj [("message",
            .obj [("content", .str "4")])]])]))
        true { prompt := "2+2?" } (.response true "OK" "b") 5).result =
      .ok { content := "4",
            rawResponse := some (.obj [("model", .str "m1"),
              ("choices", .arr [.obj [("message",
                .obj [("content", .str "4")])]])]),
            provider := "grok",
            model := .str "m1",
            usage := some ⟨none, none, none, some 5⟩ }) := by
  refine ⟨?_, ?_, rfl⟩
  · intro pj sa params statusText bodyText parsed latency payload m hbp hbt
      hpj hx hm hmn
    simp [generateCall, hbp, parseResponseBody, hbt, hpj, hx, jsGetO, hm,
      jsQQD_defined m _ hmn]
  · intro pj sa params statusText bodyText parsed latency payload hbp hbt
      hpj hx hm
    simp [generateCall, hbp, parseResponseBody, hbt, hpj, hx, jsGetO,
      jsQQD_nullish _ _ hm]
